import Mathlib

/-!
Shallow embedding of the core of the `gcs_client` library
(`gcs_client/base.py`): the authenticated request helper `GCS._request`,
the `exists` probe, the lazy-fill mechanism of `Fillable`
(`__getattribute__`, `__getattr__`, `__setattr__`, `_fill_with_data`,
`obj_from_data`), the pagination loop `Listable._list`, and the
retry-parameter handling of `GCS.__init__` and the `retry_params` setter.

Python dictionaries are embedded as association lists with insert-overwrite
semantics (`ainsert` keeps the position of an existing key, as a CPython
dict update does); attribute values are embedded as the inductive `Value`.
The parts of the repository that live outside `base.py` (the error class
hierarchy of `errors.py`, `RetryParams` of `common.py`) are modelled from
the specification and marked as such in their doc comments.
-/

set_option autoImplicit false

/-- A Python value as it appears in attribute dictionaries and parsed JSON
bodies: strings, numbers, booleans, `None`, lists and dictionaries. -/
inductive Value where
  | vstr : String → Value
  | vnat : Nat → Value
  | vbool : Bool → Value
  | vnull : Value
  | vlist : List Value → Value
  | vdict : List (String × Value) → Value

/-- First-match lookup in an association list, the read operation of a
Python dictionary with unique keys. -/
def alookup {α : Type} : List (String × α) → String → Option α
  | [], _ => none
  | (k, v) :: t, k2 => if k = k2 then some v else alookup t k2

/-- Insert-overwrite in an association list: `d[k] = v` on a Python
dictionary, keeping the position of an existing key. -/
def ainsert {α : Type} : List (String × α) → String → α → List (String × α)
  | [], k, v => [(k, v)]
  | (k1, v1) :: t, k, v =>
      if k1 = k then (k, v) :: t else (k1, v1) :: ainsert t k v

@[simp] theorem alookup_nil {α : Type} (k : String) :
    alookup ([] : List (String × α)) k = none := rfl

@[simp] theorem alookup_cons {α : Type} (k1 : String) (v1 : α)
    (t : List (String × α)) (k2 : String) :
    alookup ((k1, v1) :: t) k2 = if k1 = k2 then some v1 else alookup t k2 := rfl

@[simp] theorem alookup_ainsert_self {α : Type} (l : List (String × α))
    (k : String) (v : α) : alookup (ainsert l k v) k = some v := by
  induction l with
  | nil => simp [ainsert]
  | cons hd t ih =>
      obtain ⟨k1, v1⟩ := hd
      by_cases h : k1 = k <;> simp [ainsert, h, ih]

theorem alookup_ainsert_ne {α : Type} (l : List (String × α))
    (k k2 : String) (v : α) (h : k ≠ k2) :
    alookup (ainsert l k v) k2 = alookup l k2 := by
  induction l with
  | nil => simp [ainsert, alookup, h]
  | cons hd t ih =>
      obtain ⟨k1, v1⟩ := hd
      by_cases h1 : k1 = k
      · subst h1
        simp [ainsert, alookup, h]
      · simp [ainsert, alookup, h1, ih]

/-- Modelled from the spec: the error taxonomy of `gcs_client/errors.py`
(not under `src/`): BadRequest, Forbidden, NotFound, Conflict,
PreconditionFailed, ServerError, IncompleteResource and the generic
`Error`, typed errors carrying the raw response body. -/
inductive GcsError where
  | badRequest : String → GcsError
  | forbidden : String → GcsError
  | notFound : String → GcsError
  | conflict : String → GcsError
  | preconditionFailed : String → GcsError
  | serverError : Nat → String → GcsError
  | incomplete : GcsError
  | err : String → GcsError
deriving DecidableEq

/-- The `except gcs_errors.NotFound` class test. -/
def GcsError.isNotFound : GcsError → Bool
  | .notFound _ => true
  | _ => false

/-- The `except gcs_errors.BadRequest` class test. -/
def GcsError.isBadRequest : GcsError → Bool
  | .badRequest _ => true
  | _ => false

/-- Modelled from the spec: `gcs_errors.create_http_exception` of
`errors.py` (not under `src/`), the exact status-to-error mapping of
spec section 4.2: 400 to BadRequest, 401 or 403 to Forbidden, 404 to
NotFound, 409 to Conflict, 412 to PreconditionFailed, 5xx to ServerError,
anything else to the generic Error carrying status code and raw body. -/
def create_http_exception (status : Nat) (content : String) : GcsError :=
  if status = 400 then .badRequest content
  else if status = 401 ∨ status = 403 then .forbidden content
  else if status = 404 then .notFound content
  else if status = 409 then .conflict content
  else if status = 412 then .preconditionFailed content
  else if 500 ≤ status ∧ status < 600 then .serverError status content
  else .err (toString status ++ ": " ++ content)

/-- An HTTP response as `GCS._request` observes it: a status code, the raw
body (`r.content`), and the result of `r.json()` — `none` embeds a body
on which `r.json()` raises. -/
structure Response where
  status_code : Nat
  content : String
  json : Option Value

/-- Header preparation of `GCS._request`:
`headers = {} if not headers else headers.copy()` followed by
`headers['Authorization'] = self._credentials.authorization`.
`none` embeds a call without a `headers` argument. -/
def request_headers (headers : Option (List (String × String)))
    (authorization : String) : List (String × String) :=
  ainsert (headers.getD []) "Authorization" authorization

/-- Status and body handling of `GCS._request` (base.py lines 80-90): the
response `r` of the HTTP exchange is checked against the `ok` statuses,
then, when `parse` is set, `r.json()` is attempted; on success `r` is
returned unchanged. -/
def GCS_request (r : Response) (ok : List Nat) (parse : Bool) :
    Except GcsError Response :=
  if r.status_code ∉ ok then
    .error (create_http_exception r.status_code r.content)
  else if parse then
    match r.json with
    | none => .error (.err ("GCS response is not JSON: " ++ r.content))
    | some _ => .ok r
  else .ok r

/-- Body of `GCS.exists` (base.py lines 123-128): probe with
`self._request(op='HEAD')`; `except (NotFound, BadRequest)` yields
`False`, success yields `True`, anything else propagates. -/
def GCS_exists_body (probe : Except GcsError Response) :
    Except GcsError Bool :=
  match probe with
  | .error e =>
      if e.isNotFound || e.isBadRequest then .ok false else .error e
  | .ok _ => .ok true

/-- Modelled from the spec: the `common.is_complete` decorator of
`common.py` (not under `src/`): before the wrapped operation runs, every
identity attribute must be bound and non-null, otherwise an
IncompleteResource error is raised without a network call. -/
def is_complete_guard {α : Type} (complete : Bool)
    (body : Except GcsError α) : Except GcsError α :=
  if complete then body else .error .incomplete

/-- `GCS.exists` as decorated: the completion guard around the probe body
(the `common.retry` decorator re-invokes the same deterministic body and
is the identity here). -/
def GCS_exists (complete : Bool) (probe : Except GcsError Response) :
    Except GcsError Bool :=
  is_complete_guard complete (GCS_exists_body probe)

/-- The lazy-fill state of a `Fillable` instance: the `_gcs_attrs`
dictionary consulted first by `__getattribute__`, the ordinary instance
`__dict__` entries written by plain attribute assignment, and the
`_data_retrieved` / `_exists` flags set in `Fillable.__init__`
(base.py lines 132-139). -/
structure Fillable where
  _gcs_attrs : List (String × Value)
  obj_dict : List (String × Value)
  _data_retrieved : Bool
  _exists : Option Bool

/-- A freshly constructed `Fillable` (via `__init__`, not from raw data):
empty `_gcs_attrs`, no data attributes, `_data_retrieved = False`,
`_exists = None`. -/
def Fillable.init : Fillable :=
  { _gcs_attrs := [], obj_dict := [], _data_retrieved := false,
    _exists := none }

/-- `Fillable.__getattribute__` (base.py lines 147-151) restricted to data
attributes: `_gcs_attrs` is consulted first, then the ordinary instance
dictionary; `none` embeds the `AttributeError` of the default lookup that
hands control to `__getattr__`. -/
def Fillable.getattribute (s : Fillable) (name : String) : Option Value :=
  match alookup s._gcs_attrs name with
  | some v => some v
  | none => alookup s.obj_dict name

/-- `Fillable.__setattr__` with `force_gcs=False` (base.py lines 167-171):
the value goes to `_gcs_attrs` when the name is already there, otherwise
to the ordinary instance dictionary. -/
def Fillable.setattr (s : Fillable) (name : String) (v : Value) : Fillable :=
  if (alookup s._gcs_attrs name).isSome then
    { s with _gcs_attrs := ainsert s._gcs_attrs name v }
  else
    { s with obj_dict := ainsert s.obj_dict name v }

/-- The merge transform applied by `Fillable._fill_with_data` to each
value (base.py lines 176-180): a dictionary with exactly one entry is
replaced by that entry's value; everything else is kept as-is. -/
def flatten_value : Value → Value
  | .vdict [(_, v)] => v
  | v => v

/-- Whether a value is a Python dictionary (`isinstance(v, dict)`). -/
def Value.isDict : Value → Bool
  | .vdict _ => true
  | _ => false

/-- `Fillable._fill_with_data` (base.py lines 173-181): set
`_data_retrieved`, then bind every key of the representation into
`_gcs_attrs` (through `__setattr__` with `force_gcs=True`), flattening
single-entry dictionary values. -/
def Fillable._fill_with_data (s : Fillable)
    (data : List (String × Value)) : Fillable :=
  { s with
    _data_retrieved := true,
    _gcs_attrs := data.foldl
      (fun acc kv => ainsert acc kv.1 (flatten_value kv.2)) s._gcs_attrs }

/-- `Fillable.obj_from_data` (base.py lines 141-145): construct a fresh
instance and fill it with the raw representation, bypassing any fetch. -/
def Fillable.obj_from_data (data : List (String × Value)) : Fillable :=
  Fillable.init._fill_with_data data

/-- Outcome of one attribute access: a bound value, an `AttributeError`,
or a propagated error from the fetch hook. -/
inductive AccessResult where
  | found : Value → AccessResult
  | attrError : AccessResult
  | raised : GcsError → AccessResult

/-- One attribute read on a `Fillable`: `__getattribute__` first, and on a
miss the `__getattr__` lazy fill of base.py lines 153-165. `hook` is the
outcome the resource-specific `_get_data` hook would produce if invoked.
Returns the access result, the updated instance state, and how many times
the hook was invoked. After a successful fetch the trailing
`return getattr(self, name)` re-resolves the name against the filled
state; a second miss there raises `AttributeError` because
`_data_retrieved` is now true. -/
def Fillable.getattr (s : Fillable)
    (hook : Except GcsError (List (String × Value))) (name : String) :
    AccessResult × Fillable × Nat :=
  match s.getattribute name with
  | some v => (.found v, s, 0)
  | none =>
      if s._data_retrieved = true ∨ s._exists = some false then
        (.attrError, s, 0)
      else
        match hook with
        | .error e =>
            if e.isNotFound then
              (.attrError, { s with _exists := some false }, 1)
            else
              (.raised e, s, 1)
        | .ok data =>
            let s1 := Fillable._fill_with_data { s with _exists := some true }
              data
            match s1.getattribute name with
            | some v => (.found v, s1, 1)
            | none => (.attrError, s1, 1)

/-- A parsed listing page as `Listable._list` reads it: `r.get('items', [])`
and `r.get('nextPageToken')` (absent embeds as `none`). -/
structure Envelope where
  items : List (List (String × Value))
  nextPageToken : Option String

/-- Python truthiness of `kwargs['pageToken']` in the loop condition
`if not kwargs['pageToken']: break`: `None` and the empty string are
falsy. -/
def token_truthy : Option String → Bool
  | none => false
  | some s => !s.isEmpty

/-- The loop of `Listable._list` (base.py lines 197-211) run against a
stream of page responses (the envelopes successive `_request` calls
return, in order). `pageToken` is the token the next request carries
(`none` on the first iteration, where `kwargs` has no `pageToken`).
Returns the accumulated child resources, built per page with
`child_cls.obj_from_data`, together with the trace of `pageToken` values
sent, one per issued request; `none` signals that the stream ran out
before the loop broke. -/
def Listable_list : List Envelope → Option String →
    Option (List Fillable × List (Option String))
  | [], _ => none
  | r :: rest, pageToken =>
      let objs := r.items.map Fillable.obj_from_data
      if token_truthy r.nextPageToken then
        match Listable_list rest r.nextPageToken with
        | none => none
        | some (objs2, trace) => some (objs ++ objs2, pageToken :: trace)
      else
        some (objs, [pageToken])

/-- Modelled from the spec: `common.RetryParams` of `common.py` (not under
`src/`), pure retry configuration (spec section 3). Instances are truthy
Python objects. -/
structure RetryParams where
  max_retries : Nat
  initial_delay : Nat
  max_delay : Nat
  backoff_factor : Nat
  max_elapsed : Nat
  randomize : Bool
deriving DecidableEq

/-- Modelled from the spec: `common.RetryParams.get_default()`, the
process-wide default retry configuration instance. -/
def RetryParams.get_default : RetryParams :=
  { max_retries := 5, initial_delay := 1, max_delay := 32,
    backoff_factor := 2, max_elapsed := 900, randomize := true }

/-- `self._retry_params = retry_params or common.RetryParams.get_default()`
in `GCS.__init__` (base.py line 47): a `None` (or omitted) argument
installs the default; a `RetryParams` instance is truthy and kept. -/
def GCS_init_retry_params (retry_params : Option RetryParams) :
    Option RetryParams :=
  match retry_params with
  | none => some RetryParams.get_default
  | some p => some p

/-- An arbitrary Python value passed to the `retry_params` setter:
`None`, a `RetryParams` instance, or anything else. -/
inductive RetryParamsArg where
  | pnone : RetryParamsArg
  | pretry : RetryParams → RetryParamsArg
  | pother : Nat → RetryParamsArg
deriving DecidableEq

/-- Result of the `retry_params` setter: the new `_retry_params` value, or
a failed `assert`. -/
inductive SetterResult where
  | set : Option RetryParams → SetterResult
  | assertionFailed : SetterResult
deriving DecidableEq

/-- The `retry_params` setter (base.py lines 97-106):
`assert isinstance(retry_params, (type(None), common.RetryParams))`, then
`self._retry_params = retry_params`. -/
def retry_params_setter : RetryParamsArg → SetterResult
  | .pnone => .set none
  | .pretry p => .set (some p)
  | .pother _ => .assertionFailed

/-- The fill loop leaves keys alone that the representation does not
mention. -/
theorem alookup_fill_fold_not_mem (data : List (String × Value))
    (init : List (String × Value)) (k : String)
    (h : k ∉ data.map Prod.fst) :
    alookup (data.foldl
      (fun acc kv => ainsert acc kv.1 (flatten_value kv.2)) init) k =
      alookup init k := by
  induction data generalizing init with
  | nil => rfl
  | cons hd t ih =>
      obtain ⟨k1, v1⟩ := hd
      simp only [List.map, List.mem_cons, not_or] at h
      rw [List.foldl_cons, ih _ h.2, alookup_ainsert_ne]
      exact fun h1 => h.1 h1.symm

/-- A key the representation mentions (keys unique, as in a Python
dictionary) ends up bound to the flattened value. -/
theorem alookup_fill_fold_mem (data : List (String × Value))
    (init : List (String × Value)) (k : String) (w : Value)
    (hnd : (data.map Prod.fst).Nodup) (hk : alookup data k = some w) :
    alookup (data.foldl
      (fun acc kv => ainsert acc kv.1 (flatten_value kv.2)) init) k =
      some (flatten_value w) := by
  induction data generalizing init with
  | nil => simp at hk
  | cons hd t ih =>
      obtain ⟨k1, v1⟩ := hd
      simp only [List.map, List.nodup_cons] at hnd
      by_cases h1 : k1 = k
      · subst h1
        rw [alookup_cons, if_pos rfl] at hk
        cases hk
        rw [List.foldl_cons, alookup_fill_fold_not_mem _ _ _ hnd.1,
          alookup_ainsert_self]
      · rw [alookup_cons, if_neg h1] at hk
        rw [List.foldl_cons, ih _ hnd.2 hk]

/-- A bound attribute is returned directly with no hook invocation. -/
theorem getattr_hit (s : Fillable)
    (hook : Except GcsError (List (String × Value))) (name : String)
    (v : Value) (h : s.getattribute name = some v) :
    s.getattr hook name = (AccessResult.found v, s, 0) := by
  simp [Fillable.getattr, h]

/-- After `_data_retrieved` is set, a miss raises `AttributeError` with no
hook invocation. -/
theorem getattr_after_retrieved (s : Fillable)
    (hook : Except GcsError (List (String × Value))) (name : String)
    (h : s.getattribute name = none) (hdr : s._data_retrieved = true) :
    s.getattr hook name = (AccessResult.attrError, s, 0) := by
  simp [Fillable.getattr, h, hdr]

/-- After `_exists = False` is recorded, a miss raises `AttributeError`
with no hook invocation. -/
theorem getattr_absent (s : Fillable)
    (hook : Except GcsError (List (String × Value))) (name : String)
    (h : s.getattribute name = none) (hex : s._exists = some false) :
    s.getattr hook name = (AccessResult.attrError, s, 0) := by
  simp [Fillable.getattr, h, hex]

/-- A miss on a fresh instance with a successful hook: the state becomes
the filled one and the hook ran once, whether or not the requested name is
in the fetched data. -/
theorem getattr_ok_snd (s : Fillable) (data : List (String × Value))
    (name : String) (hdr : s._data_retrieved = false)
    (hex : s._exists = none) (hmiss : s.getattribute name = none) :
    (s.getattr (.ok data) name).2 =
      (Fillable._fill_with_data { s with _exists := some true } data, 1) := by
  obtain ⟨ga, od, dr, ex⟩ := s
  replace hdr : dr = false := hdr
  replace hex : ex = none := hex
  subst hdr; subst hex
  simp only [Fillable.getattr, hmiss]
  rw [if_neg (by simp)]
  split <;> rfl

/-- A miss on a fresh instance with a hook failing with NotFound. -/
theorem getattr_notfound_run (s : Fillable) (c : String) (name : String)
    (hdr : s._data_retrieved = false) (hex : s._exists = none)
    (hmiss : s.getattribute name = none) :
    s.getattr (.error (.notFound c)) name =
      (AccessResult.attrError, { s with _exists := some false }, 1) := by
  obtain ⟨ga, od, dr, ex⟩ := s
  replace hdr : dr = false := hdr
  replace hex : ex = none := hex
  subst hdr; subst hex
  simp [Fillable.getattr, hmiss, GcsError.isNotFound]

/-- A miss on a fresh instance with a hook failing other than NotFound. -/
theorem getattr_raise_run (s : Fillable) (e : GcsError) (name : String)
    (hdr : s._data_retrieved = false) (hex : s._exists = none)
    (hmiss : s.getattribute name = none) (hnf : e.isNotFound = false) :
    s.getattr (.error e) name = (AccessResult.raised e, s, 1) := by
  obtain ⟨ga, od, dr, ex⟩ := s
  replace hdr : dr = false := hdr
  replace hex : ex = none := hex
  subst hdr; subst hex
  simp [Fillable.getattr, hmiss, hnf]

/-- `_fill_with_data` always marks the representation as retrieved. -/
theorem fill_with_data_retrieved (s : Fillable)
    (data : List (String × Value)) :
    (s._fill_with_data data)._data_retrieved = true := rfl

/-- The `_gcs_attrs` dictionary after `_fill_with_data`. -/
theorem fill_with_data_gcs_attrs (s : Fillable)
    (data : List (String × Value)) :
    (s._fill_with_data data)._gcs_attrs =
      data.foldl (fun acc kv => ainsert acc kv.1 (flatten_value kv.2))
        s._gcs_attrs := rfl

/-- A name bound in `_gcs_attrs` is what `__getattribute__` returns. -/
theorem getattribute_gcs (s : Fillable) (name : String) (v : Value)
    (h : alookup s._gcs_attrs name = some v) :
    s.getattribute name = some v := by
  simp [Fillable.getattribute, h]

/-- On a miss on a fresh instance the hook is invoked exactly once,
whatever its outcome. -/
theorem getattr_miss_fetches_once (s : Fillable)
    (hook : Except GcsError (List (String × Value))) (name : String)
    (hdr : s._data_retrieved = false) (hex : s._exists = none)
    (hmiss : s.getattribute name = none) :
    (s.getattr hook name).2.2 = 1 := by
  obtain ⟨ga, od, dr, ex⟩ := s
  replace hdr : dr = false := hdr
  replace hex : ex = none := hex
  subst hdr; subst hex
  simp only [Fillable.getattr, hmiss]
  rw [if_neg (by simp)]
  split <;> split <;> rfl

/-- C1: for every Fillable resource not constructed from raw data, the
first read of an unbound attribute invokes the `_get_data` hook exactly
once; after that fetch succeeds, every later read of a still-unbound
attribute raises `AttributeError` and invokes the hook zero additional
times. -/
theorem fillable_first_fetch_once_then_none (s : Fillable)
    (data : List (String × Value)) (name : String)
    (hdr : s._data_retrieved = false) (hex : s._exists = none)
    (hmiss : s.getattribute name = none) :
    (s.getattr (.ok data) name).2.2 = 1 ∧
    (s.getattr (.ok data) name).2.1._data_retrieved = true ∧
    (∀ (name2 : String) (hook2 : Except GcsError (List (String × Value))),
      (s.getattr (.ok data) name).2.1.getattribute name2 = none →
      (s.getattr (.ok data) name).2.1.getattr hook2 name2 =
        (AccessResult.attrError, (s.getattr (.ok data) name).2.1, 0)) := by
  have hrun := getattr_ok_snd s data name hdr hex hmiss
  have hst : (s.getattr (.ok data) name).2.1 =
      Fillable._fill_with_data { s with _exists := some true } data := by
    rw [hrun]
  have hn : (s.getattr (.ok data) name).2.2 = 1 := by rw [hrun]
  have hdone : (s.getattr (.ok data) name).2.1._data_retrieved = true := by
    rw [hst]; exact fill_with_data_retrieved _ _
  exact ⟨hn, hdone, fun name2 hook2 hmiss2 =>
    getattr_after_retrieved _ hook2 name2 hmiss2 hdone⟩

/-- C2: for every Fillable resource whose fetch hook fails with NotFound,
the triggering access raises `AttributeError`, the instance records
`_exists = False` while staying unpopulated, and every later access to an
unbound attribute raises `AttributeError` with zero further hook
invocations. -/
theorem fillable_notfound_confirmed_absent (s : Fillable) (name : String)
    (c : String) (hdr : s._data_retrieved = false) (hex : s._exists = none)
    (hmiss : s.getattribute name = none) :
    s.getattr (.error (.notFound c)) name =
      (AccessResult.attrError, { s with _exists := some false }, 1) ∧
    ({ s with _exists := some false } : Fillable)._data_retrieved = false ∧
    (∀ (name2 : String) (hook2 : Except GcsError (List (String × Value))),
      ({ s with _exists := some false } : Fillable).getattribute name2 =
        none →
      ({ s with _exists := some false } : Fillable).getattr hook2 name2 =
        (AccessResult.attrError, { s with _exists := some false }, 0)) := by
  refine ⟨getattr_notfound_run s c name hdr hex hmiss, hdr, ?_⟩
  intro name2 hook2 hmiss2
  exact getattr_absent _ hook2 name2 hmiss2 rfl

/-- C1 witness: a fresh instance, a fetch returning `{name: n}`, a first
read of `name` and a second read of `wrong_name`. -/
theorem fillable_first_fetch_once_then_none_witness :
    (Fillable.init.getattr (.ok [("name", Value.vstr "n")]) "name").2.2 =
      1 ∧
    (Fillable.init.getattr
        (.ok [("name", Value.vstr "n")]) "name").2.1.getattr
        (.ok [("other", Value.vstr "o")]) "wrong_name" =
      (AccessResult.attrError,
        (Fillable.init.getattr
          (.ok [("name", Value.vstr "n")]) "name").2.1, 0) := by
  have h := fillable_first_fetch_once_then_none Fillable.init
    [("name", Value.vstr "n")] "name" rfl rfl rfl
  exact ⟨h.1, h.2.2 "wrong_name" (.ok [("other", Value.vstr "o")]) rfl⟩

/-- C2 witness: a fresh instance whose fetch raises NotFound, then a
second read. -/
theorem fillable_notfound_confirmed_absent_witness :
    Fillable.init.getattr (.error (.notFound "missing")) "name" =
      (AccessResult.attrError,
        { Fillable.init with _exists := some false }, 1) ∧
    ({ Fillable.init with _exists := some false } : Fillable).getattr
        (.ok [("name", Value.vstr "n")]) "name" =
      (AccessResult.attrError,
        { Fillable.init with _exists := some false }, 0) := by
  have h := fillable_notfound_confirmed_absent Fillable.init "name"
    "missing" rfl rfl rfl
  exact ⟨h.1, h.2.2 "name" (.ok [("name", Value.vstr "n")]) rfl⟩

/-- C3: an attribute `X` assigned before the first fetch reads back as the
assigned value, but once a successful fetch returns a representation that
also contains `X`, every later read of `X` returns the (merged) fetched
value, never the pre-fetch assigned one. -/
theorem fillable_fetched_value_overwrites (s : Fillable) (X y : String)
    (val w : Value) (data : List (String × Value))
    (hga : s._gcs_attrs = []) (hdr : s._data_retrieved = false)
    (hex : s._exists = none)
    (hmiss : (s.setattr X val).getattribute y = none)
    (hnd : (data.map Prod.fst).Nodup) (hX : alookup data X = some w)
    (hne : flatten_value w ≠ val) :
    (s.setattr X val).getattribute X = some val ∧
    (∀ (hook2 : Except GcsError (List (String × Value))),
      ((s.setattr X val).getattr (.ok data) y).2.1.getattr hook2 X =
        (AccessResult.found (flatten_value w),
          ((s.setattr X val).getattr (.ok data) y).2.1, 0) ∧
      AccessResult.found (flatten_value w) ≠ AccessResult.found val) := by
  have ht : s.setattr X val =
      { s with obj_dict := ainsert s.obj_dict X val } := by
    simp [Fillable.setattr, hga, alookup]
  constructor
  · rw [ht]
    simp [Fillable.getattribute, hga]
  · intro hook2
    have htdr : (s.setattr X val)._data_retrieved = false := by
      rw [ht]; exact hdr
    have htex : (s.setattr X val)._exists = none := by
      rw [ht]; exact hex
    have hrun := getattr_ok_snd (s.setattr X val) data y htdr htex hmiss
    have hst : ((s.setattr X val).getattr (.ok data) y).2.1 =
        Fillable._fill_with_data
          { s.setattr X val with _exists := some true } data := by
      rw [hrun]
    have hlk : (((s.setattr X val).getattr (.ok data) y).2.1).getattribute
        X = some (flatten_value w) := by
      rw [hst]
      apply getattribute_gcs
      rw [fill_with_data_gcs_attrs]
      exact alookup_fill_fold_mem data _ X w hnd hX
    refine ⟨getattr_hit _ hook2 X _ hlk, fun h => hne ?_⟩
    injection h

/-- C3 witness: assign `size`, fetch returns both `size` and `name`; the
read of `name` triggers the fetch and afterwards `size` reads as the
fetched value. -/
theorem fillable_fetched_value_overwrites_witness :
    (Fillable.init.setattr "size" (Value.vstr "mine")).getattribute
        "size" = some (Value.vstr "mine") ∧
    ((Fillable.init.setattr "size" (Value.vstr "mine")).getattr
        (.ok [("size", Value.vstr "gcs"), ("name", Value.vstr "n")])
        "name").2.1.getattr (.ok []) "size" =
      (AccessResult.found
        (flatten_value (Value.vstr "gcs")),
        ((Fillable.init.setattr "size" (Value.vstr "mine")).getattr
          (.ok [("size", Value.vstr "gcs"), ("name", Value.vstr "n")])
          "name").2.1, 0) := by
  have h := fillable_fetched_value_overwrites Fillable.init "size" "name"
    (Value.vstr "mine") (Value.vstr "gcs")
    [("size", Value.vstr "gcs"), ("name", Value.vstr "n")]
    rfl rfl rfl rfl (by simp) rfl (by simp [flatten_value])
  exact ⟨h.1, (h.2 (.ok [])).1⟩

/-- C6: a fetch hook failure other than NotFound propagates unchanged and
leaves the instance state untouched, so a later access to an unbound
attribute invokes the hook again. -/
theorem fillable_other_error_propagates (s : Fillable) (e : GcsError)
    (name : String) (hdr : s._data_retrieved = false)
    (hex : s._exists = none) (hmiss : s.getattribute name = none)
    (hnf : e.isNotFound = false) :
    s.getattr (.error e) name = (AccessResult.raised e, s, 1) ∧
    (∀ (name2 : String)
      (hook2 : Except GcsError (List (String × Value))),
      s.getattribute name2 = none → (s.getattr hook2 name2).2.2 = 1) :=
  ⟨getattr_raise_run s e name hdr hex hmiss hnf,
    fun name2 hook2 h => getattr_miss_fetches_once s hook2 name2 hdr hex h⟩

/-- C6 witness: a BadRequest from the hook propagates with the state
unchanged, and a retried access afterwards invokes the hook once more. -/
theorem fillable_other_error_propagates_witness :
    Fillable.init.getattr (.error (.badRequest "bad")) "name" =
      (AccessResult.raised (.badRequest "bad"), Fillable.init, 1) ∧
    (Fillable.init.getattr (.ok [("name", Value.vstr "n")]) "name").2.2 =
      1 := by
  have h := fillable_other_error_propagates Fillable.init
    (.badRequest "bad") "name" rfl rfl rfl rfl
  exact ⟨h.1, h.2 "name" (.ok [("name", Value.vstr "n")]) rfl⟩

/-- C8: every fetched value that is a single-entry mapping is replaced by
that entry's value before being bound into `_gcs_attrs`; mappings with any
other number of entries and non-mapping values are bound as-is. -/
theorem fill_merge_transform (s : Fillable) (data : List (String × Value))
    (k : String) (w : Value) (hnd : (data.map Prod.fst).Nodup)
    (hk : alookup data k = some w) :
    alookup (s._fill_with_data data)._gcs_attrs k =
      some (flatten_value w) ∧
    (∀ (key : String) (v0 : Value),
      flatten_value (Value.vdict [(key, v0)]) = v0) ∧
    (∀ (entries : List (String × Value)), entries.length ≠ 1 →
      flatten_value (Value.vdict entries) = Value.vdict entries) ∧
    (∀ (v : Value), v.isDict = false → flatten_value v = v) := by
  refine ⟨?_, fun key v0 => rfl, ?_, ?_⟩
  · rw [fill_with_data_gcs_attrs]
    exact alookup_fill_fold_mem data _ k w hnd hk
  · intro entries h
    match entries with
    | [] => rfl
    | [x] => exact absurd rfl h
    | x :: y :: t => rfl
  · intro v h
    cases v <;> simp [Value.isDict] at h ⊢ <;> rfl

/-- C8 witness: `{precise: v}` collapses to `v` when bound, a two-entry
mapping is preserved as-is. -/
theorem fill_merge_transform_witness :
    alookup ((Fillable.init._fill_with_data
        [("a", Value.vdict [("precise", Value.vstr "v")]),
          ("b", Value.vdict [("x", Value.vnat 1), ("y", Value.vnat 2)])]
      )._gcs_attrs) "a" =
      some (flatten_value (Value.vdict [("precise", Value.vstr "v")])) ∧
    flatten_value (Value.vdict [("x", Value.vnat 1), ("y", Value.vnat 2)])
      = Value.vdict [("x", Value.vnat 1), ("y", Value.vnat 2)] := by
  have h := fill_merge_transform Fillable.init
    [("a", Value.vdict [("precise", Value.vstr "v")]),
      ("b", Value.vdict [("x", Value.vnat 1), ("y", Value.vnat 2)])]
    "a" (Value.vdict [("precise", Value.vstr "v")]) (by simp) rfl
  exact ⟨h.1, h.2.2.1 [("x", Value.vnat 1), ("y", Value.vnat 2)]
    (by decide)⟩

/-- The pagination loop over a front of pages with truthy continuation
tokens followed by a final page without one: it returns the concatenation
of the constructed children, and each request after the first carries the
previous page's token. -/
theorem listable_list_run (front : List Envelope) (last : Envelope)
    (tok : Option String)
    (hmid : ∀ e ∈ front, token_truthy e.nextPageToken = true)
    (hlast : token_truthy last.nextPageToken = false) :
    Listable_list (front ++ [last]) tok =
      some (((front ++ [last]).map
          fun e => e.items.map Fillable.obj_from_data).flatten,
        tok :: front.map Envelope.nextPageToken) := by
  induction front generalizing tok with
  | nil => simp [Listable_list, hlast]
  | cons p rest ih =>
      have hp : token_truthy p.nextPageToken = true := hmid p (by simp)
      have hmid2 : ∀ e ∈ rest, token_truthy e.nextPageToken = true :=
        fun e he => hmid e (by simp [he])
      rw [List.cons_append, Listable_list]
      simp only [hp, if_true, ih _ hmid2]
      simp [List.flatten]

/-- C4: `list()` returns the page-order, within-page-order concatenation
of the constructed child resources, issues one request per page with each
request after the first carrying the previous page's `nextPageToken` as
`pageToken`, and stops after the first page whose envelope has no (or an
empty) `nextPageToken`. -/
theorem listable_list_pagination (front : List Envelope) (last : Envelope)
    (hmid : ∀ e ∈ front, token_truthy e.nextPageToken = true)
    (hlast : token_truthy last.nextPageToken = false) :
    Listable_list (front ++ [last]) none =
      some (((front ++ [last]).map
          fun e => e.items.map Fillable.obj_from_data).flatten,
        none :: front.map Envelope.nextPageToken) ∧
    (none :: front.map Envelope.nextPageToken).length =
      (front ++ [last]).length ∧
    (∀ (e : Envelope) (rest : List Envelope) (tok : Option String),
      token_truthy e.nextPageToken = false →
      Listable_list (e :: rest) tok =
        some (e.items.map Fillable.obj_from_data, [tok])) := by
  refine ⟨listable_list_run front last none hmid hlast, by simp, ?_⟩
  intro e rest tok h
  simp [Listable_list, h]

/-- C4 witness: page1 `{items: [A, B], nextPageToken: t}` and page2
`{items: [C]}` produce `[A, B, C]` with two requests, the second carrying
`pageToken = t`. -/
theorem listable_list_pagination_witness :
    Listable_list
        [{ items := [[("name", Value.vstr "A")], [("name", Value.vstr "B")]],
            nextPageToken := some "t" },
          { items := [[("name", Value.vstr "C")]], nextPageToken := none }]
        none =
      some ([Fillable.obj_from_data [("name", Value.vstr "A")],
          Fillable.obj_from_data [("name", Value.vstr "B")],
          Fillable.obj_from_data [("name", Value.vstr "C")]],
        [none, some "t"]) := by
  have h := listable_list_pagination
    [{ items := [[("name", Value.vstr "A")], [("name", Value.vstr "B")]],
        nextPageToken := some "t" }]
    { items := [[("name", Value.vstr "C")]], nextPageToken := none }
    (by intro e he; simp at he; subst he; rfl) rfl
  simpa using h.1

/-- C5: `_request` raises the status-typed error exactly on a status code
outside `ok`; with `parse` requested, an acceptable status whose body is
not JSON raises the generic Error embedding the raw body, while a
parseable body returns the response unchanged. -/
theorem request_status_and_parse (r : Response) (ok : List Nat)
    (parse : Bool) :
    (r.status_code ∉ ok →
      GCS_request r ok parse =
        .error (create_http_exception r.status_code r.content)) ∧
    (r.status_code ∈ ok → parse = true → r.json = none →
      GCS_request r ok parse =
        .error (.err ("GCS response is not JSON: " ++ r.content))) ∧
    (∀ j : Value, r.status_code ∈ ok → parse = true → r.json = some j →
      GCS_request r ok parse = .ok r) ∧
    (r.status_code ∈ ok → parse = false →
      GCS_request r ok parse = .ok r) := by
  refine ⟨?_, ?_, ?_, ?_⟩
  · intro h
    simp [GCS_request, h]
  · intro h hp hj
    simp [GCS_request, h, hp, hj]
  · intro j h hp hj
    simp [GCS_request, h, hp, hj]
  · intro h hp
    simp [GCS_request, h, hp]

/-- C5 witness: a 404 outside `ok` raises NotFound, an acceptable status
with an unparseable body raises the generic Error with the raw body, a
parseable body passes through. -/
theorem request_status_and_parse_witness :
    GCS_request ⟨404, "nf", none⟩ [200] false =
      .error (.notFound "nf") ∧
    GCS_request ⟨200, "body", none⟩ [200] true =
      .error (.err ("GCS response is not JSON: " ++ "body")) ∧
    GCS_request ⟨200, "ok", some (Value.vdict [])⟩ [200] true =
      .ok ⟨200, "ok", some (Value.vdict [])⟩ := by
  refine ⟨?_, ?_, ?_⟩
  · exact (request_status_and_parse ⟨404, "nf", none⟩ [200] false).1
      (by decide)
  · exact (request_status_and_parse ⟨200, "body", none⟩ [200] true).2.1
      (by decide) rfl rfl
  · exact (request_status_and_parse ⟨200, "ok", some (Value.vdict [])⟩
      [200] true).2.2.1 (Value.vdict []) (by decide) rfl rfl

/-- C7: for a complete resource, `exists()` returns `False` when the
probe fails with NotFound or BadRequest, `True` when the probe succeeds,
and propagates any other probe error unchanged. -/
theorem gcs_exists_probe :
    (∀ e : GcsError, e.isNotFound = true ∨ e.isBadRequest = true →
      GCS_exists true (.error e) = .ok false) ∧
    (∀ r : Response, GCS_exists true (.ok r) = .ok true) ∧
    (∀ e : GcsError, e.isNotFound = false → e.isBadRequest = false →
      GCS_exists true (.error e) = .error e) := by
  refine ⟨?_, ?_, ?_⟩
  · intro e he
    rcases he with h | h <;>
      simp [GCS_exists, is_complete_guard, GCS_exists_body, h]
  · intro r
    simp [GCS_exists, is_complete_guard, GCS_exists_body]
  · intro e h1 h2
    simp [GCS_exists, is_complete_guard, GCS_exists_body, h1, h2]

/-- C7 witness: NotFound and BadRequest probes yield `False`, a 200 probe
yields `True`, a ServerError probe propagates. -/
theorem gcs_exists_probe_witness :
    GCS_exists true (.error (.notFound "nf")) = .ok false ∧
    GCS_exists true (.error (.badRequest "br")) = .ok false ∧
    GCS_exists true (.ok ⟨200, "", some (Value.vdict [])⟩) = .ok true ∧
    GCS_exists true (.error (.serverError 503 "boom")) =
      .error (.serverError 503 "boom") :=
  ⟨gcs_exists_probe.1 (.notFound "nf") (Or.inl rfl),
    gcs_exists_probe.1 (.badRequest "br") (Or.inr rfl),
    gcs_exists_probe.2.1 ⟨200, "", some (Value.vdict [])⟩,
    gcs_exists_probe.2.2 (.serverError 503 "boom") rfl rfl⟩

/-- C9: the outgoing headers carry `Authorization` set to the credentials'
current authorization value; caller-supplied headers are merged alongside,
and a caller-supplied `Authorization` entry cannot replace the
credentials-derived one. -/
theorem request_headers_authorization
    (headers : Option (List (String × String))) (auth : String) :
    alookup (request_headers headers auth) "Authorization" = some auth ∧
    (∀ k : String, k ≠ "Authorization" →
      alookup (request_headers headers auth) k =
        alookup (headers.getD []) k) := by
  refine ⟨alookup_ainsert_self _ _ _, ?_⟩
  intro k hk
  exact alookup_ainsert_ne _ _ _ _ (fun h => hk h.symm)

/-- C9 witness: a caller supplying both a `head` header and a spoofed
`Authorization` header still sends the credentials-derived value, with the
other header preserved. -/
theorem request_headers_authorization_witness :
    alookup (request_headers
        (some [("head", "hello"), ("Authorization", "evil")]) "token")
      "Authorization" = some "token" ∧
    alookup (request_headers
        (some [("head", "hello"), ("Authorization", "evil")]) "token")
      "head" = some "hello" := by
  have h := request_headers_authorization
    (some [("head", "hello"), ("Authorization", "evil")]) "token"
  exact ⟨h.1, (h.2 "head" (by decide)).trans rfl⟩

/-- C10: constructing with `retry_params` omitted or `None` installs the
process-wide default; construction never disables retries, the setter with
`None` does, and the setter rejects any other non-`RetryParams` value. -/
theorem retry_params_default_and_setter :
    GCS_init_retry_params none = some RetryParams.get_default ∧
    (∀ arg : Option RetryParams,
      (GCS_init_retry_params arg).isSome = true) ∧
    retry_params_setter .pnone = .set none ∧
    (∀ p : RetryParams, retry_params_setter (.pretry p) = .set (some p)) ∧
    (∀ n : Nat, retry_params_setter (.pother n) = .assertionFailed) := by
  refine ⟨rfl, ?_, rfl, fun p => rfl, fun n => rfl⟩
  intro arg
  cases arg <;> rfl

/-- C10 witness: construction with `None` installs the default and the
setter rejects an integer. -/
theorem retry_params_default_and_setter_witness :
    GCS_init_retry_params none = some RetryParams.get_default ∧
    (GCS_init_retry_params (some RetryParams.get_default)).isSome =
      true ∧
    retry_params_setter (.pother 1) = .assertionFailed :=
  ⟨retry_params_default_and_setter.1,
    retry_params_default_and_setter.2.1 (some RetryParams.get_default),
    retry_params_default_and_setter.2.2.2.2 1⟩
